import Mathlib

/-!
# Verification of the para-mcp tool-dispatch gateway

This file gives a shallow embedding of `src/para-mcp/src/server.py`:
the process invoker `run_para_command`, the per-tool argument marshalers
(`handle_list`, `handle_read`, ..., `handle_reveal`), the dispatcher
`call_tool`, and the schema data declared by `list_tools`.

External collaborators (the `para` CLI process and the Python standard
library's JSON decoder) are modelled as parameters of an explicit
context `Ctx`: `oracle` maps a launched command vector to the observed
process outcome, and `jsonLoads` is the behavior of `json.loads` on the
captured standard output.  Everything else is translated directly from
the Python source.
-/

namespace ParaMCP

/-- A payload value as found in a tool-call argument mapping: the JSON
scalar types that the declared input schemas admit (string, integer,
boolean).  These are also the values that end up inside the Python list
passed to `subprocess.run`. -/
inductive PVal
  | s (v : String)
  | i (v : Int)
  | b (v : Bool)
deriving DecidableEq, Repr

/-- A decoded JSON document, as returned by `json.loads`. -/
inductive Json
  | null
  | bool (b : Bool)
  | num (n : Int)
  | str (s : String)
  | arr (elems : List Json)
  | obj (fields : List (String × Json))

/-- Outcome of one completed external process: exit status and the fully
captured standard output / standard error (`subprocess.run` is called
with `capture_output=True, text=True`). -/
structure ProcOutcome where
  returncode : Int
  stdout : String
  stderr : String

/-- The Python exceptions that can cross the handler boundary in
`server.py`: `KeyError` from a `args["field"]` access on a missing
field, the repo's own `ParaError`, the `ValueError` raised on an
unknown tool name, and `subprocess.TimeoutExpired` (which
`subprocess.run` raises only when a `timeout` argument was supplied). -/
inductive Exc
  | keyError (key : String)
  | paraError (msg : String)
  | valueError (msg : String)
  | timeoutExpired
deriving DecidableEq, Repr

/-- The keyword arguments `run_para_command` passes to `subprocess.run`
(source lines 57–63): `capture_output=True`, `text=True`, `check=check`,
`env=os.environ.copy()`.  No `timeout` keyword appears in the call, so
the parameter keeps its Python default `None`, modelled as `none`. -/
structure SubprocessKwargs where
  captureOutput : Bool
  text : Bool
  check : Bool
  envCopied : Bool
  timeout : Option Nat
deriving DecidableEq, Repr

/-- The keyword arguments built by `run_para_command` for its single
`subprocess.run` call, as a function of its `check` parameter. -/
def subprocessRunKwargs (check : Bool) : SubprocessKwargs :=
  { captureOutput := true
    text := true
    check := check
    envCopied := true
    timeout := none }

/-- Evaluation context: `paraCli` is `PARA_CLI`
(`os.environ.get("PARA_CLI_PATH", "para")`), `jsonLoads` is the
standard library JSON decoder (`none` = `json.JSONDecodeError`), and
`oracle` gives the outcome of running a given command vector. -/
structure Ctx where
  paraCli : String
  jsonLoads : String → Option Json
  oracle : List PVal → ProcOutcome

/-- Result of running a handler (or `run_para_command`): the value
returned or the exception raised, together with the list of command
vectors handed to `subprocess.run` along the way. -/
structure RunOut where
  result : Except Exc Json
  calls : List (List PVal)

/-- A tool-call payload: the `arguments` mapping of an MCP call.  Keys
are unique in a decoded JSON object; lookups take the first match. -/
abbrev Payload := List (String × PVal)

/-- `args.get(k)` / `k in args`: first-match lookup in the payload. -/
def pget : Payload → String → Option PVal
  | [], _ => none
  | (k', v) :: rest, k => if k' = k then some v else pget rest k

/-- `args.get(k, d)`: lookup with a default. -/
def pgetD (args : Payload) (k : String) (d : PVal) : PVal :=
  (pget args k).getD d

/-- Python truthiness of a payload value (`if project:`):
empty string, zero and `False` are falsy. -/
def truthyV : PVal → Bool
  | .s v => v != ""
  | .i n => n != 0
  | .b b => b

/-- Python truthiness of an `args.get(k)` result: `None` is falsy. -/
def otruthy : Option PVal → Bool
  | none => false
  | some v => truthyV v

/-- Python `str()` of a payload value, as used by `str(days)`,
`str(context)` and f-string interpolation. -/
def pyStr : PVal → String
  | .s v => v
  | .i n => toString n
  | .b true => "True"
  | .b false => "False"

/-- Python `repr()` of a payload value, as it appears when a command
list is interpolated into an error message. -/
def pyReprV : PVal → String
  | .s v => "\x27" ++ v ++ "\x27"
  | .i n => toString n
  | .b true => "True"
  | .b false => "False"

/-- Python `repr()` of a command list. -/
def reprCmd (cmd : List PVal) : String :=
  "[" ++ String.intercalate ", " (cmd.map pyReprV) ++ "]"

/-- `str()` of a `subprocess.CalledProcessError`, modelled from the
Python standard library: a generic failure message naming the command
and its exit status (negative statuses report the terminating
signal). -/
def cpeStr (cmd : List PVal) (returncode : Int) : String :=
  if returncode < 0 then
    "Command " ++ reprCmd cmd ++ " died with signal " ++ toString (-returncode) ++ "."
  else
    "Command " ++ reprCmd cmd ++ " returned non-zero exit status " ++
      toString returncode ++ "."

/-- `str()` of an exception, as interpolated by the error formatting in
`call_tool` (`str(KeyError(k))` is the `repr` of the key). -/
def pyStrExc : Exc → String
  | .keyError k => "\x27" ++ k ++ "\x27"
  | .paraError m => m
  | .valueError m => m
  | .timeoutExpired => "command timed out"

/-- The ASCII whitespace characters Python's `str.strip()` removes
(space, tab, newline, carriage return, vertical tab, form feed). -/
def isPySpace (c : Char) : Bool :=
  c == ' ' || c == '\t' || c == '\n' || c == '\r' || c == '\x0b' || c == '\x0c'

/-- Python `s.strip()`: drop leading and trailing whitespace. -/
def pyStrip (s : String) : String :=
  String.mk (((s.toList.dropWhile isPySpace).reverse.dropWhile isPySpace).reverse)

/-- `cmd = [PARA_CLI] + args + ["--json"]` (source line 53). -/
def buildCmd (paraCli : String) (args : List PVal) : List PVal :=
  PVal.s paraCli :: args ++ [PVal.s "--json"]

/-- `run_para_command(args, check)` (source lines 39–82): build the
command with the trailing `--json`, run it, convert a non-zero exit
(under `check`) into `ParaError` carrying the stripped standard error
(or the generic `CalledProcessError` text when standard error is
empty), otherwise parse standard output — falling back to
`{"output": stdout, "raw": True}` on a decode error — and return
`{"success": True, "returncode": rc}` when standard output is blank. -/
def run_para_command (ctx : Ctx) (args : List PVal) (check : Bool) : RunOut :=
  let cmd := buildCmd ctx.paraCli args
  let result := ctx.oracle cmd
  let res : Except Exc Json :=
    if check ∧ result.returncode ≠ 0 then
      Except.error (Exc.paraError ("Para command failed: " ++
        (if result.stderr ≠ "" then pyStrip result.stderr
         else cpeStr cmd result.returncode)))
    else if pyStrip result.stdout ≠ "" then
      match ctx.jsonLoads result.stdout with
      | some j => Except.ok j
      | none => Except.ok (Json.obj [("output", Json.str result.stdout),
          ("raw", Json.bool true)])
    else
      Except.ok (Json.obj [("success", Json.bool true),
        ("returncode", Json.num result.returncode)])
  ⟨res, [cmd]⟩

/-- A Python `args["k"]` subscript access: raise `KeyError(k)` when the
key is absent, otherwise continue with the value. -/
def requireField (args : Payload) (k : String) (kont : PVal → RunOut) : RunOut :=
  match pget args k with
  | none => ⟨Except.error (Exc.keyError k), []⟩
  | some v => kont v

/-- Two consecutive subscript accesses, as every two-required-field
handler performs (`args["type"]` then `args["name"]`, or `args["scope"]`
then `args["query"]`). -/
def require2 (args : Payload) (k1 k2 : String) (kont : PVal → PVal → RunOut) : RunOut :=
  requireField args k1 fun a => requireField args k2 fun b => kont a b

/-- Python dict assignment `d[k] = v` on a decoded JSON object:
overwrite in place when the key exists, append otherwise
(insertion order is preserved, as `json.dumps` serializes it). -/
def setKey : List (String × Json) → String → Json → List (String × Json)
  | [], k, v => [(k, v)]
  | (k', v') :: rest, k, v =>
    if k' = k then (k, v) :: rest else (k', v') :: setKey rest k v

/-- Python `str()` of a decoded JSON value as interpolated by an
f-string (`f"{result['path']}/journal.org"`).  Scalar cases are exact;
the rendering of containers is abstracted to a fixed token (no handler
under verification interpolates a container value). -/
def fstrJson : Json → String
  | Json.str s => s
  | Json.bool true => "True"
  | Json.bool false => "False"
  | Json.num n => toString n
  | Json.null => "None"
  | Json.arr _ => "<list>"
  | Json.obj _ => "<dict>"

/-- `handle_list` (source lines 418–427). -/
def handle_list (ctx : Ctx) (args : Payload) : RunOut :=
  let typeFilter := pgetD args "type" (PVal.s "all")
  if typeFilter = PVal.s "all" then
    run_para_command ctx [PVal.s "list"] true
  else
    run_para_command ctx [PVal.s "list", typeFilter] true

/-- `handle_read` (source lines 430–436). -/
def handle_read (ctx : Ctx) (args : Payload) : RunOut :=
  require2 args "type" "name" fun itemType name =>
    run_para_command ctx [PVal.s "read", itemType, name] true

/-- `handle_headings` (source lines 439–445). -/
def handle_headings (ctx : Ctx) (args : Payload) : RunOut :=
  require2 args "type" "name" fun itemType name =>
    run_para_command ctx [PVal.s "headings", itemType, name] true

/-- `handle_search` (source lines 448–478): positional `scope`
(`name` when the scope targets one container, guarded by a truthiness
check that returns an inline error result), then `query`, then the
optional `-C <context>` (emitted only when `context != 2`) and
`--case-sensitive` flags. -/
def handle_search (ctx : Ctx) (args : Payload) : RunOut :=
  require2 args "scope" "query" fun scope query =>
    let context := pgetD args "context" (PVal.i 2)
    let caseSensitive := pgetD args "caseSensitive" (PVal.b false)
    let cmdArgs0 := [PVal.s "search", scope]
    if scope = PVal.s "project" ∨ scope = PVal.s "area" then
      match pget args "name" with
      | none =>
        ⟨Except.ok (Json.obj [("error", Json.str
          ("\x27name\x27 is required when scope is \x27" ++ pyStr scope ++ "\x27"))]), []⟩
      | some name =>
        if truthyV name then
          let cmdArgs1 := (cmdArgs0 ++ [name]) ++ [query]
          let cmdArgs2 := if context ≠ PVal.i 2
            then cmdArgs1 ++ [PVal.s "-C", PVal.s (pyStr context)] else cmdArgs1
          let cmdArgs3 := if truthyV caseSensitive
            then cmdArgs2 ++ [PVal.s "--case-sensitive"] else cmdArgs2
          run_para_command ctx cmdArgs3 true
        else
          ⟨Except.ok (Json.obj [("error", Json.str
            ("\x27name\x27 is required when scope is \x27" ++ pyStr scope ++ "\x27"))]), []⟩
    else
      let cmdArgs1 := cmdArgs0 ++ [query]
      let cmdArgs2 := if context ≠ PVal.i 2
        then cmdArgs1 ++ [PVal.s "-C", PVal.s (pyStr context)] else cmdArgs1
      let cmdArgs3 := if truthyV caseSensitive
        then cmdArgs2 ++ [PVal.s "--case-sensitive"] else cmdArgs2
      run_para_command ctx cmdArgs3 true

/-- `if x:` / `elif` chaining on an optional payload value: the value
survives only when present and truthy. -/
def pyIfSome (v : Option PVal) : Option PVal :=
  match v with
  | some x => if truthyV x then some x else none
  | none => none

/-- `handle_agenda` (source lines 481–500): always `--days <days>`,
then `--project` if that field is (present and) truthy, else `--area`
if truthy, else the catch-all `--scope <scope>`. -/
def handle_agenda (ctx : Ctx) (args : Payload) : RunOut :=
  let days := pgetD args "days" (PVal.i 7)
  let project := pget args "project"
  let area := pget args "area"
  let scope := pgetD args "scope" (PVal.s "all")
  let base := [PVal.s "agenda", PVal.s "--days", PVal.s (pyStr days)]
  let cmdArgs :=
    match pyIfSome project with
    | some p => base ++ [PVal.s "--project", p]
    | none =>
      match pyIfSome area with
      | some a => base ++ [PVal.s "--area", a]
      | none => base ++ [PVal.s "--scope", scope]
  run_para_command ctx cmdArgs true

/-- `handle_environment` (source lines 503–506). -/
def handle_environment (ctx : Ctx) (_args : Payload) : RunOut :=
  run_para_command ctx [PVal.s "environment"] true

/-- `handle_version` (source lines 509–512). -/
def handle_version (ctx : Ctx) (_args : Payload) : RunOut :=
  run_para_command ctx [PVal.s "version"] true

/-- `handle_ai_overview` (source lines 515–518). -/
def handle_ai_overview (ctx : Ctx) (_args : Payload) : RunOut :=
  run_para_command ctx [PVal.s "ai-overview"] true

/-- `handle_directory` (source lines 521–527). -/
def handle_directory (ctx : Ctx) (args : Payload) : RunOut :=
  require2 args "type" "name" fun itemType name =>
    run_para_command ctx [PVal.s "directory", itemType, name] true

/-- `handle_path` (source lines 530–542): `name` is demanded — by an
explicit containment check raising `ParaError` — only when the location
is one specific container. -/
def handle_path (ctx : Ctx) (args : Payload) : RunOut :=
  requireField args "location" fun location =>
    if location = PVal.s "project" ∨ location = PVal.s "area" then
      match pget args "name" with
      | none =>
        ⟨Except.error (Exc.paraError
          ("Parameter \x27name\x27 is required when location is \x27" ++
            pyStr location ++ "\x27")), []⟩
      | some name => run_para_command ctx [PVal.s "path", location, name] true
    else
      run_para_command ctx [PVal.s "path", location] true

/-- `handle_create` (source lines 545–551). -/
def handle_create (ctx : Ctx) (args : Payload) : RunOut :=
  require2 args "type" "name" fun itemType name =>
    run_para_command ctx [PVal.s "create", itemType, name] true

/-- `handle_archive` (source lines 554–560). -/
def handle_archive (ctx : Ctx) (args : Payload) : RunOut :=
  require2 args "type" "name" fun itemType name =>
    run_para_command ctx [PVal.s "archive", itemType, name] true

/-- `handle_delete` (source lines 563–569). -/
def handle_delete (ctx : Ctx) (args : Payload) : RunOut :=
  require2 args "type" "name" fun itemType name =>
    run_para_command ctx [PVal.s "delete", itemType, name] true

/-- The note `handle_open` attaches. -/
def openNoteText : String :=
  "In server context, this returns the path. Use a client to actually open the file."

/-- The note `handle_reveal` attaches. -/
def revealNoteText : String :=
  "In server context, this returns the path. Use a client to actually reveal the folder."

/-- `handle_open` (source lines 572–583): run `directory`, then add
`journalPath` and `note` fields when the result is a dict containing a
`path` field. -/
def handle_open (ctx : Ctx) (args : Payload) : RunOut :=
  require2 args "type" "name" fun itemType name =>
    let r := run_para_command ctx [PVal.s "directory", itemType, name] true
    match r.result with
    | Except.ok (Json.obj fs) =>
      match (fs.lookup "path") with
      | some pathVal =>
        let fs1 := setKey fs "journalPath" (Json.str (fstrJson pathVal ++ "/journal.org"))
        let fs2 := setKey fs1 "note" (Json.str openNoteText)
        ⟨Except.ok (Json.obj fs2), r.calls⟩
      | none => r
    | _ => r

/-- `handle_reveal` (source lines 586–595): run `directory`, then add a
`note` field when the result is a dict. -/
def handle_reveal (ctx : Ctx) (args : Payload) : RunOut :=
  require2 args "type" "name" fun itemType name =>
    let r := run_para_command ctx [PVal.s "directory", itemType, name] true
    match r.result with
    | Except.ok (Json.obj fs) =>
      ⟨Except.ok (Json.obj (setKey fs "note" (Json.str revealNoteText))), r.calls⟩
    | _ => r

/-- The body of `call_tool`'s `try` block (source lines 374–407): route
on the tool name, raising `ValueError` for an unknown name. -/
def dispatchInner (ctx : Ctx) (name : String) (args : Payload) : RunOut :=
  if name = "para_list" then handle_list ctx args
  else if name = "para_read" then handle_read ctx args
  else if name = "para_headings" then handle_headings ctx args
  else if name = "para_search" then handle_search ctx args
  else if name = "para_agenda" then handle_agenda ctx args
  else if name = "para_environment" then handle_environment ctx args
  else if name = "para_version" then handle_version ctx args
  else if name = "para_ai_overview" then handle_ai_overview ctx args
  else if name = "para_directory" then handle_directory ctx args
  else if name = "para_path" then handle_path ctx args
  else if name = "para_create" then handle_create ctx args
  else if name = "para_archive" then handle_archive ctx args
  else if name = "para_delete" then handle_delete ctx args
  else if name = "para_open" then handle_open ctx args
  else if name = "para_reveal" then handle_reveal ctx args
  else ⟨Except.error (Exc.valueError ("Unknown tool: " ++ name)), []⟩

/-- `call_tool` (source lines 370–413): the dispatch with its two
`except` clauses — `ParaError` becomes `{"error": str(e)}`, any other
exception becomes `{"error": "Internal error: " + str(e)}`; both are
returned through the normal response channel. -/
def call_tool (ctx : Ctx) (name : String) (args : Payload) : RunOut :=
  let r := dispatchInner ctx name args
  match r.result with
  | Except.ok j => ⟨Except.ok j, r.calls⟩
  | Except.error (Exc.paraError m) =>
    ⟨Except.ok (Json.obj [("error", Json.str m)]), r.calls⟩
  | Except.error e =>
    ⟨Except.ok (Json.obj [("error", Json.str ("Internal error: " ++ pyStrExc e))]),
      r.calls⟩

/-- The tool names registered by `list_tools` (source lines 89–367). -/
def registeredToolNames : List String :=
  ["para_list", "para_read", "para_headings", "para_search", "para_agenda",
   "para_environment", "para_version", "para_ai_overview", "para_directory",
   "para_path", "para_create", "para_archive", "para_delete", "para_open",
   "para_reveal"]

/-- The `required` list of each tool's `inputSchema` in `list_tools`. -/
def requiredFieldsOf : String → List String
  | "para_read" => ["type", "name"]
  | "para_headings" => ["type", "name"]
  | "para_search" => ["scope", "query"]
  | "para_directory" => ["type", "name"]
  | "para_path" => ["location"]
  | "para_create" => ["type", "name"]
  | "para_archive" => ["type", "name"]
  | "para_delete" => ["type", "name"]
  | "para_open" => ["type", "name"]
  | "para_reveal" => ["type", "name"]
  | _ => []

/-- The enumeration `list_tools` declares for the `type` field of
`para_list` (source line 102). -/
def paraListTypeEnum : List String := ["project", "area", "all"]

/-- Python `del`-free removal used to phrase "the same payload without
this field": drop every pair with the given key. -/
def eraseKey (args : Payload) (k : String) : Payload :=
  args.filter (fun kv => kv.1 ≠ k)

/-- The post-processing `handle_reveal` applies on top of
`handle_directory`'s result (source lines 592–593): add the `note`
field to a dict-shaped result, leave anything else unchanged. -/
def revealPost : Except Exc Json → Except Exc Json
  | Except.ok (Json.obj fs) =>
    Except.ok (Json.obj (setKey fs "note" (Json.str revealNoteText)))
  | other => other

/-- A concrete context: default program path, a decoder that fails on
every input, an external program that exits 0 with no output. -/
def ctx0 : Ctx :=
  { paraCli := "para"
    jsonLoads := fun _ => none
    oracle := fun _ => ⟨0, "", ""⟩ }

/-- A concrete context whose external program fails with diagnostic
text on standard error. -/
def ctxFail : Ctx :=
  { paraCli := "para"
    jsonLoads := fun _ => none
    oracle := fun _ => ⟨1, "", " not found\n"⟩ }

/-- A concrete context whose external program exits 0 and prints
unparseable text. -/
def ctxRaw : Ctx :=
  { paraCli := "para"
    jsonLoads := fun _ => none
    oracle := fun _ => ⟨0, "not json", ""⟩ }

/-- A concrete context whose external program exits 1 while printing
unparseable text on standard output and nothing on standard error. -/
def ctxRawErr : Ctx :=
  { paraCli := "para"
    jsonLoads := fun _ => none
    oracle := fun _ => ⟨1, "not json", ""⟩ }

/-- Every command vector that reaches `subprocess.run` ends in the
structured-output flag. -/
def lastIsJson (c : List PVal) : Bool :=
  c.getLast? == some (PVal.s "--json")

/-- All command vectors launched by a handler end in `--json`. -/
def callsOK (r : RunOut) : Bool :=
  r.calls.all lastIsJson

theorem buildCmd_getLast (paraCli : String) (args : List PVal) :
    (buildCmd paraCli args).getLast? = some (PVal.s "--json") := by
  show ((PVal.s paraCli :: args) ++ [PVal.s "--json"]).getLast? = some (PVal.s "--json")
  exact List.getLast?_concat _

theorem run_para_command_calls (ctx : Ctx) (args : List PVal) (check : Bool) :
    (run_para_command ctx args check).calls = [buildCmd ctx.paraCli args] := rfl

theorem run_callsOK (ctx : Ctx) (args : List PVal) (check : Bool) :
    callsOK (run_para_command ctx args check) = true := by
  simp [callsOK, run_para_command, lastIsJson, buildCmd_getLast]

theorem requireField_none (args : Payload) (k : String) (kont : PVal → RunOut)
    (h : pget args k = none) :
    requireField args k kont = ⟨Except.error (Exc.keyError k), []⟩ := by
  simp [requireField, h]

theorem requireField_some (args : Payload) (k : String) (kont : PVal → RunOut)
    {v : PVal} (h : pget args k = some v) :
    requireField args k kont = kont v := by
  simp [requireField, h]

theorem require2_missing (args : Payload) (k1 k2 : String) (kont : PVal → PVal → RunOut)
    (hd : pget args k1 = none ∨ pget args k2 = none) :
    ∃ g, (g = k1 ∨ g = k2) ∧ pget args g = none ∧
      require2 args k1 k2 kont = ⟨Except.error (Exc.keyError g), []⟩ := by
  cases h1 : pget args k1 with
  | none =>
    exact ⟨k1, Or.inl rfl, h1, requireField_none args k1 _ h1⟩
  | some v =>
    have h2 : pget args k2 = none := by
      rcases hd with h | h
      · rw [h1] at h; cases h
      · exact h
    refine ⟨k2, Or.inr rfl, h2, ?_⟩
    show requireField args k1 _ = _
    rw [requireField_some args k1 _ h1]
    exact requireField_none args k2 _ h2

theorem call_tool_of_keyError (ctx : Ctx) (name : String) (args : Payload) (g : String)
    (h : dispatchInner ctx name args = ⟨Except.error (Exc.keyError g), []⟩) :
    call_tool ctx name args =
      ⟨Except.ok (Json.obj [("error",
        Json.str ("Internal error: " ++ pyStrExc (Exc.keyError g)))]), []⟩ := by
  simp [call_tool, h]

theorem pget_eraseKey_ne (args : Payload) {k k' : String} (h : k' ≠ k) :
    pget (eraseKey args k) k' = pget args k' := by
  induction args with
  | nil => rfl
  | cons kv rest ih =>
    rcases kv with ⟨k0, v0⟩
    simp only [eraseKey, List.filter_cons] at ih ⊢
    by_cases h0 : k0 = k
    · simp only [h0]
      rw [if_neg (by simp)]
      rw [ih]
      have hk : (k : String) ≠ k' := Ne.symm h
      simp [pget, hk]
    · rw [if_pos (by simp [h0])]
      by_cases h1 : k0 = k'
      · simp [pget, h1]
      · simp [pget, h1]
        simpa using ih

theorem pyIfSome_of_not_otruthy {v : Option PVal} (h : otruthy v = false) :
    pyIfSome v = none := by
  cases v with
  | none => rfl
  | some x =>
    simp only [otruthy] at h
    simp [pyIfSome, h]

theorem revealPost_of_obj {fs : List (String × Json)} {r : Except Exc Json}
    (h : r = Except.ok (Json.obj fs)) :
    revealPost r = Except.ok (Json.obj (setKey fs "note" (Json.str revealNoteText))) := by
  subst h; rfl

theorem handle_list_callsOK (ctx : Ctx) (args : Payload) :
    callsOK (handle_list ctx args) = true := by
  unfold handle_list
  dsimp only
  split_ifs <;> exact run_callsOK _ _ _

theorem handle_read_callsOK (ctx : Ctx) (args : Payload) :
    callsOK (handle_read ctx args) = true := by
  unfold handle_read require2 requireField
  dsimp only
  repeat' split
  all_goals first | rfl | exact run_callsOK _ _ _

theorem handle_headings_callsOK (ctx : Ctx) (args : Payload) :
    callsOK (handle_headings ctx args) = true := by
  unfold handle_headings require2 requireField
  dsimp only
  repeat' split
  all_goals first | rfl | exact run_callsOK _ _ _

theorem handle_search_callsOK (ctx : Ctx) (args : Payload) :
    callsOK (handle_search ctx args) = true := by
  unfold handle_search require2 requireField
  dsimp only
  repeat' split
  all_goals first | rfl | exact run_callsOK _ _ _

theorem handle_agenda_callsOK (ctx : Ctx) (args : Payload) :
    callsOK (handle_agenda ctx args) = true := by
  unfold handle_agenda
  dsimp only
  repeat' split
  all_goals first | rfl | exact run_callsOK _ _ _

theorem handle_environment_callsOK (ctx : Ctx) (args : Payload) :
    callsOK (handle_environment ctx args) = true :=
  run_callsOK _ _ _

theorem handle_version_callsOK (ctx : Ctx) (args : Payload) :
    callsOK (handle_version ctx args) = true :=
  run_callsOK _ _ _

theorem handle_ai_overview_callsOK (ctx : Ctx) (args : Payload) :
    callsOK (handle_ai_overview ctx args) = true :=
  run_callsOK _ _ _

theorem handle_directory_callsOK (ctx : Ctx) (args : Payload) :
    callsOK (handle_directory ctx args) = true := by
  unfold handle_directory require2 requireField
  dsimp only
  repeat' split
  all_goals first | rfl | exact run_callsOK _ _ _

theorem handle_path_callsOK (ctx : Ctx) (args : Payload) :
    callsOK (handle_path ctx args) = true := by
  unfold handle_path requireField
  dsimp only
  repeat' split
  all_goals first | rfl | exact run_callsOK _ _ _

theorem handle_create_callsOK (ctx : Ctx) (args : Payload) :
    callsOK (handle_create ctx args) = true := by
  unfold handle_create require2 requireField
  dsimp only
  repeat' split
  all_goals first | rfl | exact run_callsOK _ _ _

theorem handle_archive_callsOK (ctx : Ctx) (args : Payload) :
    callsOK (handle_archive ctx args) = true := by
  unfold handle_archive require2 requireField
  dsimp only
  repeat' split
  all_goals first | rfl | exact run_callsOK _ _ _

theorem handle_delete_callsOK (ctx : Ctx) (args : Payload) :
    callsOK (handle_delete ctx args) = true := by
  unfold handle_delete require2 requireField
  dsimp only
  repeat' split
  all_goals first | rfl | exact run_callsOK _ _ _

theorem handle_open_callsOK (ctx : Ctx) (args : Payload) :
    callsOK (handle_open ctx args) = true := by
  unfold handle_open require2 requireField
  dsimp only
  repeat' split
  all_goals first | rfl | exact run_callsOK _ _ _

theorem handle_reveal_callsOK (ctx : Ctx) (args : Payload) :
    callsOK (handle_reveal ctx args) = true := by
  unfold handle_reveal require2 requireField
  dsimp only
  repeat' split
  all_goals first | rfl | exact run_callsOK _ _ _

/-- C4: for every tool invocation that reaches the process invoker, the
argument vector passed to the external program ends in the fixed
structured-output flag `--json`: every command vector any dispatch hands
to `subprocess.run` has `--json` as its last element (the program path,
positional arguments and optional flags all precede it). -/
theorem dispatch_calls_end_with_json_flag (ctx : Ctx) (name : String) (args : Payload) :
    callsOK (dispatchInner ctx name args) = true := by
  unfold dispatchInner
  by_cases h1 : name = "para_list"
  · rw [if_pos h1]; exact handle_list_callsOK _ _
  rw [if_neg h1]
  by_cases h2 : name = "para_read"
  · rw [if_pos h2]; exact handle_read_callsOK _ _
  rw [if_neg h2]
  by_cases h3 : name = "para_headings"
  · rw [if_pos h3]; exact handle_headings_callsOK _ _
  rw [if_neg h3]
  by_cases h4 : name = "para_search"
  · rw [if_pos h4]; exact handle_search_callsOK _ _
  rw [if_neg h4]
  by_cases h5 : name = "para_agenda"
  · rw [if_pos h5]; exact handle_agenda_callsOK _ _
  rw [if_neg h5]
  by_cases h6 : name = "para_environment"
  · rw [if_pos h6]; exact handle_environment_callsOK _ _
  rw [if_neg h6]
  by_cases h7 : name = "para_version"
  · rw [if_pos h7]; exact handle_version_callsOK _ _
  rw [if_neg h7]
  by_cases h8 : name = "para_ai_overview"
  · rw [if_pos h8]; exact handle_ai_overview_callsOK _ _
  rw [if_neg h8]
  by_cases h9 : name = "para_directory"
  · rw [if_pos h9]; exact handle_directory_callsOK _ _
  rw [if_neg h9]
  by_cases h10 : name = "para_path"
  · rw [if_pos h10]; exact handle_path_callsOK _ _
  rw [if_neg h10]
  by_cases h11 : name = "para_create"
  · rw [if_pos h11]; exact handle_create_callsOK _ _
  rw [if_neg h11]
  by_cases h12 : name = "para_archive"
  · rw [if_pos h12]; exact handle_archive_callsOK _ _
  rw [if_neg h12]
  by_cases h13 : name = "para_delete"
  · rw [if_pos h13]; exact handle_delete_callsOK _ _
  rw [if_neg h13]
  by_cases h14 : name = "para_open"
  · rw [if_pos h14]; exact handle_open_callsOK _ _
  rw [if_neg h14]
  by_cases h15 : name = "para_reveal"
  · rw [if_pos h15]; exact handle_reveal_callsOK _ _
  rw [if_neg h15]
  rfl

theorem run_para_command_result_shape (ctx : Ctx) (args : List PVal) (check : Bool) :
    (∃ m, (run_para_command ctx args check).result = Except.error (Exc.paraError m)) ∨
    (∃ j, (run_para_command ctx args check).result = Except.ok j) := by
  unfold run_para_command
  dsimp only
  split
  · exact Or.inl ⟨_, rfl⟩
  · split
    · split
      · exact Or.inr ⟨_, rfl⟩
      · exact Or.inr ⟨_, rfl⟩
    · exact Or.inr ⟨_, rfl⟩

/-- C1 counterexample: `run_para_command` does not enforce any
wall-clock timeout — the `subprocess.run` call it performs carries no
`timeout` argument (the parameter stays at its default `None`),
whether `check` is enabled or not. -/
theorem run_para_command_timeout_counterexample :
    (subprocessRunKwargs true).timeout = none ∧
    (subprocessRunKwargs false).timeout = none :=
  ⟨rfl, rfl⟩

/-- C1 (amended): `run_para_command` invokes `subprocess.run` with no
timeout (the `timeout` keyword keeps its default `None`), so no
wall-clock limit is enforced, and no invocation ever fails with a
timeout error: the call waits for the external process indefinitely. -/
theorem run_para_command_enforces_no_timeout :
    (∀ check : Bool, (subprocessRunKwargs check).timeout = none) ∧
    (∀ (ctx : Ctx) (args : List PVal) (check : Bool),
      (run_para_command ctx args check).result ≠ Except.error Exc.timeoutExpired) := by
  refine ⟨fun _ => rfl, fun ctx args check h => ?_⟩
  rcases run_para_command_result_shape ctx args check with ⟨m, hm⟩ | ⟨j, hj⟩
  · rw [hm] at h
    exact Exc.noConfusion (Except.error.inj h)
  · rw [hj] at h
    exact Except.noConfusion h

/-- C1 witness: the no-timeout facts at a concrete invocation. -/
theorem run_para_command_enforces_no_timeout_witness :
    (subprocessRunKwargs true).timeout = none ∧
    (run_para_command ctx0 [PVal.s "list"] true).result ≠
      Except.error Exc.timeoutExpired :=
  ⟨run_para_command_enforces_no_timeout.1 true,
    run_para_command_enforces_no_timeout.2 ctx0 [PVal.s "list"] true⟩

/-- C5: when the external program exits non-zero (with `check` enabled),
`run_para_command` fails with a `ParaError` whose message carries the
stripped captured standard error, or the generic
`CalledProcessError` failure text when standard error is empty. -/
theorem run_para_command_nonzero_exit_para_error (ctx : Ctx) (args : List PVal)
    (hrc : (ctx.oracle (buildCmd ctx.paraCli args)).returncode ≠ 0) :
    ∃ msg, (run_para_command ctx args true).result = Except.error (Exc.paraError msg) ∧
      ((ctx.oracle (buildCmd ctx.paraCli args)).stderr ≠ "" →
        msg = "Para command failed: " ++
          pyStrip (ctx.oracle (buildCmd ctx.paraCli args)).stderr) ∧
      ((ctx.oracle (buildCmd ctx.paraCli args)).stderr = "" →
        msg = "Para command failed: " ++
          cpeStr (buildCmd ctx.paraCli args)
            (ctx.oracle (buildCmd ctx.paraCli args)).returncode) := by
  by_cases hs : (ctx.oracle (buildCmd ctx.paraCli args)).stderr = ""
  · refine ⟨_, ?_, fun h => absurd hs h, fun _ => rfl⟩
    simp [run_para_command, hrc, hs]
  · refine ⟨_, ?_, fun _ => rfl, fun h => absurd h hs⟩
    simp [run_para_command, hrc, hs]

/-- C5 witness: a concrete failing invocation (`exit 1`, standard error
` not found\n`) yields the `ParaError` described by the theorem. -/
theorem run_para_command_nonzero_exit_para_error_witness :
    ∃ msg,
      (run_para_command ctxFail [PVal.s "list"] true).result =
        Except.error (Exc.paraError msg) ∧
      ((ctxFail.oracle (buildCmd ctxFail.paraCli [PVal.s "list"])).stderr ≠ "" →
        msg = "Para command failed: " ++
          pyStrip (ctxFail.oracle (buildCmd ctxFail.paraCli [PVal.s "list"])).stderr) ∧
      ((ctxFail.oracle (buildCmd ctxFail.paraCli [PVal.s "list"])).stderr = "" →
        msg = "Para command failed: " ++
          cpeStr (buildCmd ctxFail.paraCli [PVal.s "list"])
            (ctxFail.oracle (buildCmd ctxFail.paraCli [PVal.s "list"])).returncode) :=
  run_para_command_nonzero_exit_para_error ctxFail [PVal.s "list"] (by decide)

/-- C6: when the external program exits with status zero and its
captured standard output strips to the empty string,
`run_para_command` returns the success dict
`{"success": True, "returncode": 0}` rather than an error. -/
theorem run_para_command_zero_exit_empty_stdout_success (ctx : Ctx) (args : List PVal)
    (check : Bool)
    (hrc : (ctx.oracle (buildCmd ctx.paraCli args)).returncode = 0)
    (hout : pyStrip (ctx.oracle (buildCmd ctx.paraCli args)).stdout = "") :
    (run_para_command ctx args check).result =
      Except.ok (Json.obj [("success", Json.bool true),
        ("returncode", Json.num 0)]) := by
  simp [run_para_command, hrc, hout]

/-- C6 witness: a concrete zero-exit, empty-output invocation. -/
theorem run_para_command_zero_exit_empty_stdout_success_witness :
    (run_para_command ctx0 [PVal.s "version"] true).result =
      Except.ok (Json.obj [("success", Json.bool true),
        ("returncode", Json.num 0)]) :=
  run_para_command_zero_exit_empty_stdout_success ctx0 [PVal.s "version"] true rfl rfl

/-- C7 counterexample: an invocation whose captured standard output is
the non-empty, unparseable text `not json` does NOT always yield the
raw fallback — when the process also exits non-zero under `check`,
`run_para_command` raises `ParaError` instead, so the claim's
quantification over every invocation fails. -/
theorem unparsed_output_counterexample :
    (ctxRawErr.oracle (buildCmd "para" [PVal.s "list"])).stdout = "not json" ∧
    ctxRawErr.jsonLoads "not json" = none ∧
    (run_para_command ctxRawErr [PVal.s "list"] true).result =
      Except.error (Exc.paraError ("Para command failed: " ++
        cpeStr (buildCmd "para" [PVal.s "list"]) 1)) :=
  ⟨rfl, rfl, rfl⟩

/-- C7 (amended): for every invocation that passes the exit-status
check (exit zero, or `check` disabled) and whose captured standard
output is non-empty but not parseable as JSON, `run_para_command`
returns the fallback `{"output": <raw text>, "raw": True}` and does not
raise or return an error. -/
theorem run_para_command_unparsed_fallback (ctx : Ctx) (args : List PVal) (check : Bool)
    (hok : check = true → (ctx.oracle (buildCmd ctx.paraCli args)).returncode = 0)
    (hstd : pyStrip (ctx.oracle (buildCmd ctx.paraCli args)).stdout ≠ "")
    (hparse : ctx.jsonLoads (ctx.oracle (buildCmd ctx.paraCli args)).stdout = none) :
    (run_para_command ctx args check).result =
      Except.ok (Json.obj
        [("output", Json.str (ctx.oracle (buildCmd ctx.paraCli args)).stdout),
         ("raw", Json.bool true)]) := by
  cases check with
  | false => simp [run_para_command, hstd, hparse]
  | true =>
    have h0 := hok rfl
    simp [run_para_command, hstd, hparse, h0]

/-- C7 witness: the literal output `not json` on a zero-exit invocation
produces the tagged raw fallback. -/
theorem run_para_command_unparsed_fallback_witness :
    (run_para_command ctxRaw [PVal.s "version"] true).result =
      Except.ok (Json.obj [("output", Json.str "not json"),
        ("raw", Json.bool true)]) :=
  run_para_command_unparsed_fallback ctxRaw [PVal.s "version"] true
    (fun _ => rfl) (by decide) rfl

theorem missing_two {args : Payload} {k1 k2 f : String}
    (hf : f = k1 ∨ f = k2) (hn : pget args f = none) :
    pget args k1 = none ∨ pget args k2 = none := by
  rcases hf with rfl | rfl
  exacts [Or.inl hn, Or.inr hn]

/-- C2: for every registered tool, dispatching a payload that is
missing one of that tool's schema-required fields surfaces a
missing-field error — the `KeyError` of a `args["field"]` access on a
(then) missing required field — as the structured error result
`{"error": "Internal error: '<field>'"}`, with no external process
launched; in particular the error is never the `ParaError` that models
ExternalToolError. -/
theorem call_tool_missing_required_field (ctx : Ctx) (name : String) (args : Payload)
    (hreg : name ∈ registeredToolNames)
    (hmiss : ∃ f ∈ requiredFieldsOf name, pget args f = none) :
    ∃ g ∈ requiredFieldsOf name, pget args g = none ∧
      dispatchInner ctx name args = ⟨Except.error (Exc.keyError g), []⟩ ∧
      call_tool ctx name args =
        ⟨Except.ok (Json.obj [("error",
          Json.str ("Internal error: " ++ pyStrExc (Exc.keyError g)))]), []⟩ := by
  simp only [registeredToolNames, List.mem_cons, List.not_mem_nil, or_false] at hreg
  obtain ⟨f, hf, hn⟩ := hmiss
  rcases hreg with rfl|rfl|rfl|rfl|rfl|rfl|rfl|rfl|rfl|rfl|rfl|rfl|rfl|rfl|rfl
  -- para_list: no required fields
  · rw [show requiredFieldsOf "para_list" = [] from rfl] at hf
    exact absurd hf (List.not_mem_nil f)
  -- para_read
  · rw [show requiredFieldsOf "para_read" = ["type", "name"] from rfl] at hf ⊢
    have hf2 : f = "type" ∨ f = "name" := by simpa using hf
    obtain ⟨g, hg, hgn, hgr⟩ :=
      require2_missing args "type" "name" _ (missing_two hf2 hn)
    have hd : dispatchInner ctx "para_read" args =
        ⟨Except.error (Exc.keyError g), []⟩ := hgr
    exact ⟨g, by rcases hg with rfl | rfl <;> simp, hgn, hd,
      call_tool_of_keyError ctx "para_read" args g hd⟩
  -- para_headings
  · rw [show requiredFieldsOf "para_headings" = ["type", "name"] from rfl] at hf ⊢
    have hf2 : f = "type" ∨ f = "name" := by simpa using hf
    obtain ⟨g, hg, hgn, hgr⟩ :=
      require2_missing args "type" "name" _ (missing_two hf2 hn)
    have hd : dispatchInner ctx "para_headings" args =
        ⟨Except.error (Exc.keyError g), []⟩ := hgr
    exact ⟨g, by rcases hg with rfl | rfl <;> simp, hgn, hd,
      call_tool_of_keyError ctx "para_headings" args g hd⟩
  -- para_search
  · rw [show requiredFieldsOf "para_search" = ["scope", "query"] from rfl] at hf ⊢
    have hf2 : f = "scope" ∨ f = "query" := by simpa using hf
    obtain ⟨g, hg, hgn, hgr⟩ :=
      require2_missing args "scope" "query" _ (missing_two hf2 hn)
    have hd : dispatchInner ctx "para_search" args =
        ⟨Except.error (Exc.keyError g), []⟩ := hgr
    exact ⟨g, by rcases hg with rfl | rfl <;> simp, hgn, hd,
      call_tool_of_keyError ctx "para_search" args g hd⟩
  -- para_agenda: no required fields
  · rw [show requiredFieldsOf "para_agenda" = [] from rfl] at hf
    exact absurd hf (List.not_mem_nil f)
  -- para_environment
  · rw [show requiredFieldsOf "para_environment" = [] from rfl] at hf
    exact absurd hf (List.not_mem_nil f)
  -- para_version
  · rw [show requiredFieldsOf "para_version" = [] from rfl] at hf
    exact absurd hf (List.not_mem_nil f)
  -- para_ai_overview
  · rw [show requiredFieldsOf "para_ai_overview" = [] from rfl] at hf
    exact absurd hf (List.not_mem_nil f)
  -- para_directory
  · rw [show requiredFieldsOf "para_directory" = ["type", "name"] from rfl] at hf ⊢
    have hf2 : f = "type" ∨ f = "name" := by simpa using hf
    obtain ⟨g, hg, hgn, hgr⟩ :=
      require2_missing args "type" "name" _ (missing_two hf2 hn)
    have hd : dispatchInner ctx "para_directory" args =
        ⟨Except.error (Exc.keyError g), []⟩ := hgr
    exact ⟨g, by rcases hg with rfl | rfl <;> simp, hgn, hd,
      call_tool_of_keyError ctx "para_directory" args g hd⟩
  -- para_path
  · rw [show requiredFieldsOf "para_path" = ["location"] from rfl] at hf ⊢
    have hf2 : f = "location" := by simpa using hf
    subst hf2
    have hd : dispatchInner ctx "para_path" args =
        ⟨Except.error (Exc.keyError "location"), []⟩ :=
      requireField_none args "location" _ hn
    exact ⟨"location", by simp, hn, hd,
      call_tool_of_keyError ctx "para_path" args "location" hd⟩
  -- para_create
  · rw [show requiredFieldsOf "para_create" = ["type", "name"] from rfl] at hf ⊢
    have hf2 : f = "type" ∨ f = "name" := by simpa using hf
    obtain ⟨g, hg, hgn, hgr⟩ :=
      require2_missing args "type" "name" _ (missing_two hf2 hn)
    have hd : dispatchInner ctx "para_create" args =
        ⟨Except.error (Exc.keyError g), []⟩ := hgr
    exact ⟨g, by rcases hg with rfl | rfl <;> simp, hgn, hd,
      call_tool_of_keyError ctx "para_create" args g hd⟩
  -- para_archive
  · rw [show requiredFieldsOf "para_archive" = ["type", "name"] from rfl] at hf ⊢
    have hf2 : f = "type" ∨ f = "name" := by simpa using hf
    obtain ⟨g, hg, hgn, hgr⟩ :=
      require2_missing args "type" "name" _ (missing_two hf2 hn)
    have hd : dispatchInner ctx "para_archive" args =
        ⟨Except.error (Exc.keyError g), []⟩ := hgr
    exact ⟨g, by rcases hg with rfl | rfl <;> simp, hgn, hd,
      call_tool_of_keyError ctx "para_archive" args g hd⟩
  -- para_delete
  · rw [show requiredFieldsOf "para_delete" = ["type", "name"] from rfl] at hf ⊢
    have hf2 : f = "type" ∨ f = "name" := by simpa using hf
    obtain ⟨g, hg, hgn, hgr⟩ :=
      require2_missing args "type" "name" _ (missing_two hf2 hn)
    have hd : dispatchInner ctx "para_delete" args =
        ⟨Except.error (Exc.keyError g), []⟩ := hgr
    exact ⟨g, by rcases hg with rfl | rfl <;> simp, hgn, hd,
      call_tool_of_keyError ctx "para_delete" args g hd⟩
  -- para_open
  · rw [show requiredFieldsOf "para_open" = ["type", "name"] from rfl] at hf ⊢
    have hf2 : f = "type" ∨ f = "name" := by simpa using hf
    obtain ⟨g, hg, hgn, hgr⟩ :=
      require2_missing args "type" "name" _ (missing_two hf2 hn)
    have hd : dispatchInner ctx "para_open" args =
        ⟨Except.error (Exc.keyError g), []⟩ := hgr
    exact ⟨g, by rcases hg with rfl | rfl <;> simp, hgn, hd,
      call_tool_of_keyError ctx "para_open" args g hd⟩
  -- para_reveal
  · rw [show requiredFieldsOf "para_reveal" = ["type", "name"] from rfl] at hf ⊢
    have hf2 : f = "type" ∨ f = "name" := by simpa using hf
    obtain ⟨g, hg, hgn, hgr⟩ :=
      require2_missing args "type" "name" _ (missing_two hf2 hn)
    have hd : dispatchInner ctx "para_reveal" args =
        ⟨Except.error (Exc.keyError g), []⟩ := hgr
    exact ⟨g, by rcases hg with rfl | rfl <;> simp, hgn, hd,
      call_tool_of_keyError ctx "para_reveal" args g hd⟩

/-- C2 witness: `para_read` with an empty payload is missing its
required `type` field and yields the key-error result with no process
launched. -/
theorem call_tool_missing_required_field_witness :
    ∃ g ∈ requiredFieldsOf "para_read", pget ([] : Payload) g = none ∧
      dispatchInner ctx0 "para_read" [] = ⟨Except.error (Exc.keyError g), []⟩ ∧
      call_tool ctx0 "para_read" [] =
        ⟨Except.ok (Json.obj [("error",
          Json.str ("Internal error: " ++ pyStrExc (Exc.keyError g)))]), []⟩ :=
  call_tool_missing_required_field ctx0 "para_read" [] (by decide)
    ⟨"type", by decide, rfl⟩

/-- C3 counterexample: the string `bogus` lies outside the enumeration
`["project", "area", "all"]` declared for `para_list`'s `type` field,
yet dispatch performs no enumeration validation: the external process
is launched with `bogus` in its argument vector and no InvalidValue
error is produced. -/
theorem enum_validation_counterexample :
    "bogus" ∉ paraListTypeEnum ∧
    (dispatchInner ctx0 "para_list" [("type", PVal.s "bogus")]).calls =
      [[PVal.s "para", PVal.s "list", PVal.s "bogus", PVal.s "--json"]] ∧
    (dispatchInner ctx0 "para_list" [("type", PVal.s "bogus")]).result =
      Except.ok (Json.obj [("success", Json.bool true),
        ("returncode", Json.num 0)]) :=
  ⟨by decide, rfl, rfl⟩

/-- C3 (amended): dispatch performs no enumeration validation — a
payload value outside a field's declared enumeration is passed through
into the argument vector unchanged and the external process is
launched with it, the invocation's outcome being whatever
`run_para_command` produces. -/
theorem dispatch_no_enum_validation (ctx : Ctx) (v : String) (hv : v ≠ "all") :
    (dispatchInner ctx "para_list" [("type", PVal.s v)]).calls =
      [buildCmd ctx.paraCli [PVal.s "list", PVal.s v]] ∧
    (dispatchInner ctx "para_list" [("type", PVal.s v)]).result =
      (run_para_command ctx [PVal.s "list", PVal.s v] true).result := by
  have hstep : dispatchInner ctx "para_list" [("type", PVal.s v)] =
      handle_list ctx [("type", PVal.s v)] := rfl
  rw [hstep]
  unfold handle_list
  have hget : pgetD [("type", PVal.s v)] "type" (PVal.s "all") = PVal.s v := rfl
  rw [hget]
  rw [if_neg (by simp [hv])]
  exact ⟨rfl, rfl⟩

/-- C3 witness: the amended behavior at the concrete out-of-enumeration
value `bogus`. -/
theorem dispatch_no_enum_validation_witness :
    (dispatchInner ctx0 "para_list" [("type", PVal.s "bogus")]).calls =
      [buildCmd ctx0.paraCli [PVal.s "list", PVal.s "bogus"]] ∧
    (dispatchInner ctx0 "para_list" [("type", PVal.s "bogus")]).result =
      (run_para_command ctx0 [PVal.s "list", PVal.s "bogus"] true).result :=
  dispatch_no_enum_validation ctx0 "bogus" (by decide)

/-- C8 counterexample: supplying both `project` and `area` does not
always build the same argument vector as supplying only `project` —
the fields resolve by Python truthiness, not presence, so an
empty-string `project` together with `area = "x"` emits `--area x`,
while `project = ""` alone falls back to `--scope all`. -/
theorem agenda_precedence_counterexample :
    (dispatchInner ctx0 "para_agenda"
        [("project", PVal.s ""), ("area", PVal.s "x")]).calls ≠
    (dispatchInner ctx0 "para_agenda" [("project", PVal.s "")]).calls := by
  decide

/-- C8 (amended): when the supplied `project` value is truthy
(non-empty), the agenda dispatch is identical to the same payload with
`area` removed — `project` takes precedence; and when neither `project`
nor `area` is present-and-truthy, the catch-all `--scope` flag with the
scope value (default `all`) is emitted instead. -/
theorem handle_agenda_precedence (ctx : Ctx) (args : Payload) :
    (∀ p, pget args "project" = some p → truthyV p = true →
      dispatchInner ctx "para_agenda" args =
        dispatchInner ctx "para_agenda" (eraseKey args "area")) ∧
    (otruthy (pget args "project") = false → otruthy (pget args "area") = false →
      (dispatchInner ctx "para_agenda" args).calls =
        [buildCmd ctx.paraCli [PVal.s "agenda", PVal.s "--days",
          PVal.s (pyStr (pgetD args "days" (PVal.i 7))), PVal.s "--scope",
          pgetD args "scope" (PVal.s "all")]]) := by
  constructor
  · intro p hp htp
    show handle_agenda ctx args = handle_agenda ctx (eraseKey args "area")
    unfold handle_agenda
    simp only [pgetD]
    rw [pget_eraseKey_ne args (show ("days" : String) ≠ "area" from by decide),
      pget_eraseKey_ne args (show ("project" : String) ≠ "area" from by decide),
      pget_eraseKey_ne args (show ("scope" : String) ≠ "area" from by decide)]
    rw [hp]
    simp [pyIfSome, htp]
  · intro hp ha
    have h1 : pyIfSome (pget args "project") = none := pyIfSome_of_not_otruthy hp
    have h2 : pyIfSome (pget args "area") = none := pyIfSome_of_not_otruthy ha
    show (handle_agenda ctx args).calls = _
    unfold handle_agenda
    dsimp only
    rw [h1, h2]
    rfl

/-- C8 witness: with a truthy `project` (`"alpha"`) and an `area`
(`"beta"`) both supplied, the dispatch equals the one on the payload
with `area` removed. -/
theorem handle_agenda_precedence_witness :
    dispatchInner ctx0 "para_agenda"
        [("project", PVal.s "alpha"), ("area", PVal.s "beta")] =
      dispatchInner ctx0 "para_agenda"
        (eraseKey [("project", PVal.s "alpha"), ("area", PVal.s "beta")] "area") :=
  (handle_agenda_precedence ctx0
    [("project", PVal.s "alpha"), ("area", PVal.s "beta")]).1
    (PVal.s "alpha") rfl rfl

/-- C9: dispatching `para_search` with scope `project` or `area` and no
`name` field yields a missing-field error result — the inline
name-required error object, or the `KeyError` on `query` when that
required field is also absent — and launches no external process. -/
theorem handle_search_scope_requires_name (ctx : Ctx) (args : Payload) (sc : String)
    (hscope : pget args "scope" = some (PVal.s sc))
    (hsc : sc = "project" ∨ sc = "area")
    (hname : pget args "name" = none) :
    (dispatchInner ctx "para_search" args).calls = [] ∧
    ((dispatchInner ctx "para_search" args).result =
        Except.error (Exc.keyError "query") ∨
     (dispatchInner ctx "para_search" args).result =
        Except.ok (Json.obj [("error", Json.str
          ("\x27name\x27 is required when scope is \x27" ++ sc ++ "\x27"))])) := by
  have hstep : dispatchInner ctx "para_search" args = handle_search ctx args := rfl
  rw [hstep]
  unfold handle_search require2
  rw [requireField_some args "scope" _ hscope]
  cases hq : pget args "query" with
  | none =>
    rw [requireField_none args "query" _ hq]
    exact ⟨rfl, Or.inl rfl⟩
  | some q =>
    rw [requireField_some args "query" _ hq]
    have hcond : (PVal.s sc = PVal.s "project" ∨ PVal.s sc = PVal.s "area") := by
      rcases hsc with rfl | rfl
      exacts [Or.inl rfl, Or.inr rfl]
    dsimp only
    rw [if_pos hcond, hname]
    exact ⟨rfl, Or.inr rfl⟩

/-- C9 witness: the spec's own example — scope `project`, no `name`
(and no `query`) — yields the missing-field error with no launch. -/
theorem handle_search_scope_requires_name_witness :
    (dispatchInner ctx0 "para_search" [("scope", PVal.s "project")]).calls = [] ∧
    ((dispatchInner ctx0 "para_search" [("scope", PVal.s "project")]).result =
        Except.error (Exc.keyError "query") ∨
     (dispatchInner ctx0 "para_search" [("scope", PVal.s "project")]).result =
        Except.ok (Json.obj [("error", Json.str
          ("\x27name\x27 is required when scope is \x27" ++ "project" ++ "\x27"))])) :=
  handle_search_scope_requires_name ctx0 [("scope", PVal.s "project")] "project"
    rfl (Or.inl rfl) rfl

/-- C10: `para_reveal` launches exactly the same command vector as
`para_directory` — `[PARA_CLI, "directory", type, name, "--json"]` —
and its result is `para_directory`'s with the post-processing
`revealPost` applied, which adds the `note` field to a dict-shaped
result and changes nothing else. -/
theorem handle_reveal_refines_directory (ctx : Ctx) (args : Payload) :
    (handle_reveal ctx args).calls = (handle_directory ctx args).calls ∧
    (handle_reveal ctx args).result = revealPost (handle_directory ctx args).result ∧
    (∀ t n, pget args "type" = some t → pget args "name" = some n →
      (handle_reveal ctx args).calls =
        [buildCmd ctx.paraCli [PVal.s "directory", t, n]]) := by
  unfold handle_reveal handle_directory require2
  cases ht : pget args "type" with
  | none =>
    rw [requireField_none args "type" _ ht]
    rw [requireField_none args "type" _ ht]
    refine ⟨rfl, rfl, ?_⟩
    intro t n ht' hn'
    exact Option.noConfusion ht'
  | some t =>
    cases hn : pget args "name" with
    | none =>
      rw [requireField_some args "type" _ ht]
      rw [requireField_some args "type" _ ht]
      rw [requireField_none args "name" _ hn]
      rw [requireField_none args "name" _ hn]
      refine ⟨rfl, rfl, ?_⟩
      intro t' n' ht' hn'
      exact Option.noConfusion hn'
    | some n =>
      rw [requireField_some args "type" _ ht]
      rw [requireField_some args "type" _ ht]
      rw [requireField_some args "name" _ hn]
      rw [requireField_some args "name" _ hn]
      dsimp only
      refine ⟨?_, ?_, ?_⟩
      · cases hres : (run_para_command ctx [PVal.s "directory", t, n] true).result with
        | error e => rfl
        | ok j => cases j <;> rfl
      · cases hres : (run_para_command ctx [PVal.s "directory", t, n] true).result with
        | error e => simp [revealPost, hres]
        | ok j => cases j <;> simp [revealPost, hres]
      · intro t' n' ht' hn'
        obtain rfl : t = t' := by injection ht'
        obtain rfl : n = n' := by injection hn'
        cases hres : (run_para_command ctx [PVal.s "directory", t, n] true).result with
        | error e => rfl
        | ok j => cases j <;> rfl

/-- C10 witness: a concrete `para_reveal` payload launches the
`directory` command vector. -/
theorem handle_reveal_refines_directory_witness :
    (handle_reveal ctx0 [("type", PVal.s "project"), ("name", PVal.s "alpha")]).calls =
      [buildCmd ctx0.paraCli [PVal.s "directory", PVal.s "project", PVal.s "alpha"]] :=
  (handle_reveal_refines_directory ctx0
    [("type", PVal.s "project"), ("name", PVal.s "alpha")]).2.2
    (PVal.s "project") (PVal.s "alpha") rfl rfl

end ParaMCP
